import Mathlib

/-!
Verification of the StudySync AI backend against its specification.

This file shallowly embeds the parts of the backend the claims are about:

* `backend/auth.py` — JWT verification and user resolution;
* `backend/simple_chains.py` — the simplified Plan / Quiz / Explain chains;
* `backend/chains/plan_chain.py` — the templated plan chain's output parser
  and study-duration heuristic;
* `backend/memory_manager.py` — the Redis recency cache and the unified
  context-retrieval algorithm;
* `backend/ws.py` — the WebSocket message handler and endpoint lifecycle.

External services (the LLM client, `json.loads`, the ChromaDB similarity
query, HMAC-SHA256) are modelled as explicit function parameters: the source
delegates to libraries for them, and every claim is about the surrounding
control flow, not about those libraries.  Machine-level details that no claim
touches (log statements, prompt text fed to the LLM, wall-clock formatting)
are elided; each elision is noted in the doc comment of the definition.
-/

namespace StudySync

/-! ### A minimal model of Python/JSON values

Python dictionaries produced by `json.loads` and by the chains are modelled
as association lists preserving insertion order, exactly as CPython dicts do.
-/

/-- JSON values as produced by `json.loads` and manipulated by the chains. -/
inductive Json where
  | obj (fields : List (String × Json))
  | arr (elems : List Json)
  | str (s : String)
  | num (n : Int)
  | jbool (b : Bool)
  | null
deriving Repr

/-- Dictionary lookup `d[k]` / `k in d` on a Python dict: first (unique) key wins. -/
def Json.getField : Json → String → Option Json
  | .obj fs, k => fs.lookup k
  | _, _ => none

/-- Python dict assignment `d[k] = v` on the underlying association list:
replaces the value of an existing key in place (keys are unique, so
replacing the first occurrence is dict semantics), else appends at the
end. -/
def setFieldList : List (String × Json) → String → Json → List (String × Json)
  | [], k, v => [(k, v)]
  | (a, w) :: ps, k, v =>
    if a = k then (a, v) :: ps else (a, w) :: setFieldList ps k v

/-- Python `d[k] = v`.  On a non-dict value this is a `TypeError`, modelled
as `none` so the caller's exception handling can be reproduced. -/
def Json.setField : Json → String → Json → Option Json
  | .obj fs, k, v => some (.obj (setFieldList fs k v))
  | _, _, _ => none

/-! ### String helpers

Python's `str.strip` / `startswith` / `endswith` / slicing / `split` /
`in`, modelled on the character list underlying a `String` (all reduce by
computation, unlike the position-based core `String` functions). -/

/-- Python `str.isspace` characters relevant to `strip()`. -/
def isPySpace (c : Char) : Bool :=
  c.toNat = 32 || c.toNat = 9 || c.toNat = 10 ||
  c.toNat = 13 || c.toNat = 11 || c.toNat = 12

/-- Python `s.strip()`: drop leading and trailing whitespace. -/
def pyStrip (s : String) : String :=
  ⟨(((s.data.dropWhile isPySpace).reverse.dropWhile isPySpace).reverse)⟩

/-- Python `s.startswith(pre)`. -/
def strStartsWith (s pre : String) : Bool :=
  pre.data.isPrefixOf s.data

/-- Python `s.endswith(suf)`. -/
def strEndsWith (s suf : String) : Bool :=
  suf.data.isSuffixOf s.data

/-- Python `s[n:]`. -/
def strDrop (s : String) (n : Nat) : String := ⟨s.data.drop n⟩

/-- Python `s[:-n]` (for `n ≤ len(s)`). -/
def strDropRight (s : String) (n : Nat) : String :=
  ⟨s.data.take (s.data.length - n)⟩

/-- Splitting accumulator for `splitLines`. -/
def splitLinesAux : List Char → List Char → List String
  | [], acc => [⟨acc.reverse⟩]
  | c :: cs, acc =>
    if c = '\n' then ⟨acc.reverse⟩ :: splitLinesAux cs []
    else splitLinesAux cs (c :: acc)

/-- Python `s.split('\n')`. -/
def splitLines (s : String) : List String := splitLinesAux s.data []

/-- Substring containment on character lists. -/
def listContainsSub (sub : List Char) : List Char → Bool
  | [] => sub.isEmpty
  | c :: cs => sub.isPrefixOf (c :: cs) || listContainsSub sub cs

/-- Python `sub in s`. -/
def strContainsSub (s sub : String) : Bool := listContainsSub sub.data s.data

/-! ### auth.py — token verification and user resolution (claim C1) -/

/-- The decoded claim set of a JWT.  `userMetadataName` models
`user_metadata.get("name")`; claims the code never reads are elided. -/
structure JwtClaims where
  sub : Option String
  exp : Option Int
  email : Option String
  userMetadataName : Option String
deriving DecidableEq, Repr

/-- A JWT as seen by `jwt.decode`: its claim set together with the signature
carried in the third segment of the compact form. -/
structure JwtToken where
  claims : JwtClaims
  signature : String
deriving DecidableEq, Repr

/-- Producing a token signed with `secret`: the signature is the HMAC-SHA256
MAC of the encoded header/payload.  `mac` abstracts that keyed hash; `decode`
below recomputes the same `mac`, which is all PyJWT's signature check uses. -/
def signToken (mac : String → JwtClaims → String) (secret : String)
    (claims : JwtClaims) : JwtToken :=
  ⟨claims, mac secret claims⟩

/-- The PyJWT errors distinguished by `verify_token`'s handlers.
`missingRequiredClaim` and `invalidSignature` are both subclasses of
`InvalidTokenError`; `expiredSignature` has its own handler. -/
inductive JwtError where
  | expiredSignature
  | invalidSignature
  | missingRequiredClaim
deriving DecidableEq, Repr

/-- Model of `jwt.decode(token, secret, algorithms=["HS256"], options={...})`
as called in `verify_token`: verify the signature, require the `sub` and
`exp` claims, and reject an `exp` that is not in the future (audience
verification is disabled by the source's options). -/
def jwtDecode (mac : String → JwtClaims → String) (secret : String)
    (now : Int) (token : JwtToken) : Except JwtError JwtClaims :=
  if token.signature = mac secret token.claims then
    match token.claims.sub, token.claims.exp with
    | none, _ => .error .missingRequiredClaim
    | _, none => .error .missingRequiredClaim
    | some _, some e =>
      if e ≤ now then .error .expiredSignature else .ok token.claims
  else .error .invalidSignature

/-- An HTTPException: status code and detail string. -/
structure HttpError where
  statusCode : Nat
  detail : String
deriving DecidableEq, Repr

/-- The `UserPayload` pydantic model built from the decoded claims. -/
structure UserPayload where
  sub : String
  exp : Int
  email : Option String
  userMetadataName : Option String
deriving DecidableEq, Repr

/-- Model of `verify_token`.  `secretEnv` is the `SUPABASE_JWT_SECRET`
environment variable.  Notable faithful details: the `HTTPException` raised
by `get_supabase_secret` when the secret is missing, and the one raised by
the falsy-`sub` check, are both swallowed by the function's own
`except Exception` handler and resurface as 401 "Authentication failed". -/
def verify_token (mac : String → JwtClaims → String)
    (secretEnv : Option String) (now : Int) (token : JwtToken) :
    Except HttpError UserPayload :=
  match secretEnv with
  | none => .error ⟨401, "Authentication failed"⟩
  | some secret =>
    match jwtDecode mac secret now token with
    | .error .expiredSignature =>
        .error ⟨401, "Token has expired. Please login again."⟩
    | .error _ => .error ⟨401, "Invalid authentication token"⟩
    | .ok claims =>
      match claims.sub, claims.exp with
      | some s, some e =>
        if s = "" then .error ⟨401, "Authentication failed"⟩
        else .ok ⟨s, e, claims.email, claims.userMetadataName⟩
      | _, _ => .error ⟨401, "Authentication failed"⟩

/-- Hex digit value of a character, as accepted by `int(s, 16)`. -/
def hexDigitVal (c : Char) : Option Nat :=
  if '0' ≤ c ∧ c ≤ '9' then some (c.toNat - '0'.toNat)
  else if 'a' ≤ c ∧ c ≤ 'f' then some (c.toNat - 'a'.toNat + 10)
  else if 'A' ≤ c ∧ c ≤ 'F' then some (c.toNat - 'A'.toNat + 10)
  else none

/-- Big-endian hex string to natural number. -/
def parseHexAux : List Char → Nat → Option Nat
  | [], acc => some acc
  | c :: cs, acc =>
    match hexDigitVal c with
    | none => none
    | some v => parseHexAux cs (acc * 16 + v)

/-- Model of the core of Python's `uuid.UUID(s)` constructor for bare and
dashed hex forms: remove all dashes, require exactly 32 hex digits, read
them as the UUID's 128-bit integer (the urn/brace wrappers Python also
strips are not relevant to the spec's canonical `sub` values). -/
def uuidFromString (s : String) : Option Nat :=
  let cs := s.data.filter (fun c => c ≠ '-')
  if cs.length = 32 then parseHexAux cs 0 else none

/-- The `User` model from models.py; `id` is the UUID's 128-bit integer and
`created_at` (stamped with the wall clock, irrelevant to every claim) is
elided. -/
structure User where
  id : Nat
  email : Option String
  name : Option String
deriving DecidableEq, Repr

/-- Model of `get_current_user`.  `credentials = none` models an empty
bearer token string (the `if not token` branch). -/
def get_current_user (mac : String → JwtClaims → String)
    (secretEnv : Option String) (now : Int)
    (credentials : Option JwtToken) : Except HttpError User :=
  match credentials with
  | none => .error ⟨401, "Authorization token required"⟩
  | some token =>
    match verify_token mac secretEnv now token with
    | .error e => .error e
    | .ok payload =>
      match uuidFromString payload.sub with
      | none => .error ⟨401, "Invalid user identifier format"⟩
      | some uid => .ok ⟨uid, payload.email, payload.userMetadataName⟩

/-! ### chains/plan_chain.py — study duration heuristic (claim C8) -/

/-- Model of `PlanChain._calculate_study_duration`.  `daysUntil` models
`(datetime.strptime(s, "%Y-%m-%d") - datetime.now()).days`, with `none` for
the `ValueError` a malformed date string raises; `Int.fdiv` is Python's
floor division `//`.  `exam_date` values `None` and `""` are both falsy. -/
def calculate_study_duration (daysUntil : String → Option Int)
    (exam_date : Option String) : Int :=
  match exam_date with
  | none => 8
  | some s =>
    if s = "" then 8
    else
      match daysUntil s with
      | none => 8
      | some d => min (max 1 (Int.fdiv d 7)) 16

/-! ### simple_chains.py — simplified Plan / Quiz / Explain chains
(claims C2, C3, C4)

In these models:
* `loads : String → Option Json` stands for `json.loads`, with `none` for
  the `JSONDecodeError` it raises on malformed input;
* `llm : Except String String` stands for the whole
  `cerebras_client.chat.completions.create(...)` call followed by
  `response.choices[0].message.content`: `.ok text` is a returned content
  string, `.error msg` is any exception raised on that path (unconfigured
  client, network failure, `None` content);
* the `Except String` error type carries `str(e)` of a Python exception;
* context retrieval and memory storage are wrapped in their own
  `try/except` blocks in the source, never raise outward and never change
  the returned payload, so they are elided here;
* prompt construction is pure string formatting fed only to the LLM and is
  elided; `genTime` stands for `datetime.now().isoformat()`.
-/

/-- The `StudyPlanInput` model of simple_chains.py (`user_id` as its
string form, which is how it is interpolated into outputs). -/
structure StudyPlanInput where
  user_id : String
  subject : String
  goals : List String
  timeline : String
  difficulty_level : String
  learning_style : String
  time_commitment : String
  focus_areas : List String
  current_knowledge : String
deriving Repr

/-- The `QuizInput` model of simple_chains.py. -/
structure QuizInput where
  user_id : String
  topic : String
  difficulty : String
  question_count : Nat
  question_types : List String
  focus_areas : List String
  learning_objectives : List String
deriving Repr

/-- The `ExplainInput` model of simple_chains.py. -/
structure ExplainInput where
  user_id : String
  concept : String
  complexity_level : String
  context : Option String
  format_preference : String
  target_audience : String
deriving Repr

/-- The structured response PlanChain builds when the LLM text does not
parse as JSON (both the not-`{`-prefixed branch and the
`except json.JSONDecodeError` branch build this same dict). -/
def planTextWrap (inp : StudyPlanInput) (planText : String) : Json :=
  .obj [("title", .str (inp.subject ++ " Study Plan")),
        ("description", .str planText),
        ("sections", .arr []),
        ("total_duration", .str inp.timeline),
        ("difficulty_level", .str inp.difficulty_level)]

/-- The `metadata` block PlanChain attaches on the success path. -/
def planMetadata (inp : StudyPlanInput) (genTime : String) : Json :=
  .obj [("user_id", .str inp.user_id),
        ("generated_at", .str genTime),
        ("model_used", .str "llama3.1-8b")]

/-- The fallback payload of PlanChain's outer `except Exception` handler;
it references only `str(e)` and literals. -/
def planErrorFallback (e : String) : Json :=
  .obj [("title", .str "Study Plan Generation Failed"),
        ("description", .str ("Unable to generate study plan: " ++ e)),
        ("sections", .arr []),
        ("metadata", .obj [("error", .str e)])]

/-- The body of `PlanChain.__call__`'s `try` block.  `inputs = none` models
a missing `"study_plan_input"` key (a `KeyError`). -/
def PlanChain.callBody (loads : String → Option Json)
    (llm : Except String String) (inputs : Option StudyPlanInput)
    (genTime : String) : Except String Json :=
  match inputs with
  | none => .error "'study_plan_input'"
  | some inp =>
    match llm with
    | .error e => .error e
    | .ok planText =>
      let planData :=
        if strStartsWith (pyStrip planText) "\x7b" then
          match loads planText with
          | some j => j
          | none => planTextWrap inp planText
        else planTextWrap inp planText
      match planData.setField "metadata" (planMetadata inp genTime) with
      | some j => .ok j
      | none => .error "object does not support item assignment"

/-- Model of `PlanChain.__call__`: run the body and convert any exception
into the deterministic fallback payload. -/
def PlanChain.call (loads : String → Option Json)
    (llm : Except String String) (inputs : Option StudyPlanInput)
    (genTime : String) : Except String Json :=
  match PlanChain.callBody loads llm inputs genTime with
  | .ok j => .ok j
  | .error e => .ok (planErrorFallback e)

/-- Whether a response line survives
`line.strip() and ('?' in line or 'Question' in line)`. -/
def isQuestionLine (l : String) : Bool :=
  !(pyStrip l).data.isEmpty && (l.data.contains '?' || strContainsSub l "Question")

/-- One heuristic question record built from a text line (1-based `i`). -/
def heuristicQuestion (inp : QuizInput) (i : Nat) (line : String) : Json :=
  .obj [("id", .num (i + 1)),
        ("question", .str (pyStrip line)),
        ("type", .str "short_answer"),
        ("options", .arr []),
        ("correct_answer", .str "See explanation"),
        ("explanation", .str "Answer depends on understanding of the topic."),
        ("topic", .str inp.topic),
        ("difficulty", .str inp.difficulty)]

/-- The bare-`except` branch of `QuizChain._parse_questions`: treat every
line containing `?` or `Question` as a question stem, truncated to
`question_count`. -/
def heuristicParse (text : String) (inp : QuizInput) : List Json :=
  let question_lines := (splitLines text).filter isQuestionLine
  ((question_lines.take inp.question_count).enum).map
    (fun p => heuristicQuestion inp p.1 p.2)

/-- Model of `QuizChain._parse_questions`: JSON-first (array taken as is, a
single object wrapped in a list), falling back to the line heuristic only
when `json.loads` raises; when the text starts with neither `[` nor `{`,
`questions` simply stays empty.  The final truncation applies on every
path. -/
def QuizChain.parse_questions (loads : String → Option Json) (text : String)
    (inp : QuizInput) : List Json :=
  let questions :=
    if strStartsWith (pyStrip text) "[" || strStartsWith (pyStrip text) "\x7b" then
      match loads text with
      | some (.arr l) => l
      | some j => [j]
      | none => heuristicParse text inp
    else []
  questions.take inp.question_count

/-- The fallback payload of QuizChain's outer `except Exception` handler. -/
def quizErrorFallback (e : String) : Json :=
  .obj [("questions", .arr
          [.obj [("id", .num 1),
                 ("question", .str ("Quiz generation failed: " ++ e)),
                 ("type", .str "multiple_choice"),
                 ("options", .arr [.str "Error occurred", .str "Please try again",
                                   .str "Contact support", .str "Check configuration"]),
                 ("correct_answer", .str "Please try again"),
                 ("explanation", .str "An error occurred during quiz generation.")]]),
        ("metadata", .obj [("error", .str e)])]

/-- The `metadata` block QuizChain attaches on the success path. -/
def quizMeta (inp : QuizInput) (genTime : String) : Json :=
  .obj [("user_id", .str inp.user_id),
        ("generated_at", .str genTime),
        ("model_used", .str "llama3.1-8b")]

/-- The body of `QuizChain.__call__`'s `try` block. -/
def QuizChain.callBody (loads : String → Option Json)
    (llm : Except String String) (inputs : Option QuizInput)
    (genTime : String) : Except String Json :=
  match inputs with
  | none => .error "'quiz_input'"
  | some inp =>
    match llm with
    | .error e => .error e
    | .ok quizText =>
      .ok (.obj [("questions", .arr (QuizChain.parse_questions loads quizText inp)),
                 ("metadata", quizMeta inp genTime)])

/-- Model of `QuizChain.__call__`. -/
def QuizChain.call (loads : String → Option Json)
    (llm : Except String String) (inputs : Option QuizInput)
    (genTime : String) : Except String Json :=
  match QuizChain.callBody loads llm inputs genTime with
  | .ok j => .ok j
  | .error e => .ok (quizErrorFallback e)

/-- The fallback payload of ExplainChain's `except Exception` handler; note
that it interpolates `explain_input.concept`, a local variable. -/
def explainErrorFallback (concept e : String) : Json :=
  .obj [("explanation", .str ("Unable to generate explanation for '" ++
                              concept ++ "': " ++ e)),
        ("key_points", .arr []),
        ("examples", .arr []),
        ("related_concepts", .arr []),
        ("further_reading", .arr []),
        ("metadata", .obj [("error", .str e)])]

/-- The body of `ExplainChain.__call__`'s `try` block (no JSON parsing at
all in this variant: the raw text becomes `explanation`). -/
def ExplainChain.callBody (llm : Except String String)
    (inputs : Option ExplainInput) (genTime : String) :
    Except String Json :=
  match inputs with
  | none => .error "'explain_input'"
  | some inp =>
    match llm with
    | .error e => .error e
    | .ok explanationText =>
      .ok (.obj [("explanation", .str explanationText),
               ("key_points", .arr []),
               ("examples", .arr []),
               ("related_concepts", .arr []),
               ("further_reading", .arr []),
               ("metadata", .obj [("user_id", .str inp.user_id),
                                  ("generated_at", .str genTime),
                                  ("model_used", .str "llama3.1-8b")])])

/-- Model of `ExplainChain.__call__`.  When the body's exception occurred
before `explain_input` was bound (a missing `"explain_input"` key), the
handler's f-string `f"... '{explain_input.concept}' ..."` itself raises
(in CPython an `UnboundLocalError` naming `explain_input`), which
propagates out of the call — modelled by the final `.error`. -/
def ExplainChain.call (llm : Except String String)
    (inputs : Option ExplainInput) (genTime : String) :
    Except String Json :=
  match ExplainChain.callBody llm inputs genTime with
  | .ok j => .ok j
  | .error e =>
    match inputs with
    | some inp => .ok (explainErrorFallback inp.concept e)
    | none =>
        .error "cannot access local variable 'explain_input' where it is not associated with a value"

/-! ### chains/plan_chain.py — templated output parser (claim C5) -/

/-- The code-fence stripping at the top of `StudyPlanOutputParser.parse`. -/
def stripCodeFence (text : String) : String :=
  let t := pyStrip text
  let t := if strStartsWith t "```json" then strDrop t 7 else t
  let t := if strEndsWith t "```" then strDropRight t 3 else t
  pyStrip t

/-- Model of `StudyPlanOutputParser.parse`.  On successful `json.loads` the
value is returned (the required-field check only logs warnings).  On
`JSONDecodeError` the handler builds its fallback dict starting with
`f"Study Plan for {self.subject}"` — but the parser object has no
attribute `subject`, so that very line raises `AttributeError`, which
escapes `parse` (an exception raised inside an `except` clause is not
caught by the sibling `except Exception` clause). -/
def StudyPlanOutputParser.parse (loads : String → Option Json)
    (text : String) : Except String Json :=
  let t := stripCodeFence text
  match loads t with
  | some j => .ok j
  | none => .error "'StudyPlanOutputParser' object has no attribute 'subject'"

/-! ### memory_manager.py — recency cache and context retrieval
(claims C6, C7)

Timestamps are modelled as integers; the source sorts `datetime` values and
formats them with `isoformat()`, an order-preserving injective encoding, so
nothing a claim touches depends on the representation.
-/

/-- An `InteractionRecord` as stored and retrieved by the memory subsystem
(`session_id` and `metadata`, which no retrieval path reads, are elided). -/
structure InteractionRecord where
  user_id : String
  chain_type : String
  input_data : Json
  output_data : Json
  timestamp : Int
deriving Repr

/-- The Redis key space as the cache uses it: one list per
`recent:{user}:{chain}` key and a record per `interaction:...` key (the
JSON round trip through `dumps`/`loads` is elided: `kv` yields the decoded
record, `none` for a missing or expired key, which the source skips). -/
structure RedisState where
  lists : String → List String
  kv : String → Option InteractionRecord

/-- Redis `LRANGE key start stop`: `stop` is inclusive, and a negative
`stop` counts from the end of the list. -/
def lrange (l : List String) (start : Nat) (stop : Int) : List String :=
  let stop' : Int := if stop < 0 then (l.length : Int) + stop else stop
  (l.take (stop' + 1).toNat).drop start

/-- Insert a record into a timestamp-descending list, before the first
element that is not strictly newer: the resulting sort is stable, like
Python's `list.sort(key=..., reverse=True)`. -/
def insertByTsDesc (r : InteractionRecord) :
    List InteractionRecord → List InteractionRecord
  | [] => [r]
  | b :: bs =>
    if b.timestamp ≤ r.timestamp then r :: b :: bs else b :: insertByTsDesc r bs

/-- Stable sort, newest first — the model of
`interactions.sort(key=lambda x: x.timestamp, reverse=True)`. -/
def sortByTimestampDesc : List InteractionRecord → List InteractionRecord
  | [] => []
  | r :: rs => insertByTsDesc r (sortByTimestampDesc rs)

/-- Model of `RedisMemoryCache.get_recent_interactions`.  With a chain type
it reads `LRANGE key 0 (max_results - 1)`; across all chain types it reads
`LRANGE key 0 (max_results // 3)` from each of the three fixed categories,
merges, sorts newest first and truncates to `max_results`. -/
def RedisMemoryCache.get_recent_interactions (st : RedisState)
    (user_id : String) (chain_type : Option String) (max_results : Nat) :
    List InteractionRecord :=
  let fetch := fun (ct : String) (stop : Int) =>
    (lrange (st.lists ("recent:" ++ user_id ++ ":" ++ ct)) 0 stop).filterMap st.kv
  let interactions :=
    match chain_type with
    | some ct => fetch ct ((max_results : Int) - 1)
    | none =>
        ((["plan", "quiz", "explain"].map
            (fun ct => fetch ct ((max_results / 3 : Nat) : Int))).flatten)
  (sortByTimestampDesc interactions).take max_results

/-- The retrieval across all chain types as the spec words it, amended only
by the off-by-one the code actually has: at most `max_results ÷ 3 + 1`
record ids are fetched per category (LRANGE's stop index is inclusive),
then merged, sorted newest first, and truncated to `max_results`. -/
def claimedRecentRetrievalAllTypes (st : RedisState) (user_id : String)
    (max_results : Nat) : List InteractionRecord :=
  let perCategory := fun (ct : String) =>
    ((st.lists ("recent:" ++ user_id ++ ":" ++ ct)).take
        (max_results / 3 + 1)).filterMap st.kv
  (sortByTimestampDesc
      ((["plan", "quiz", "explain"].map perCategory).flatten)).take max_results

/-- Python `str(value)` for the scalar JSON values the summary heuristics
interpolate into f-strings (no claim exercises non-scalar values here). -/
def Json.display : Json → String
  | .str s => s
  | .num n => toString n
  | .jbool b => if b then "True" else "False"
  | .null => "None"
  | .arr _ => "[...]"
  | .obj _ => "\x7b...\x7d"

/-- Model of `MemoryManager._summarize_input`. -/
def summarizeInput (input : Json) : String :=
  match input.getField "subject" with
  | some v => "Study plan for " ++ v.display
  | none =>
    match input.getField "topic" with
    | some v =>
        "Quiz on " ++ v.display ++ " (" ++
          ((input.getField "difficulty").map Json.display).getD "unknown" ++
          " difficulty)"
    | none =>
      match input.getField "concept" with
      | some v => "Explanation of " ++ v.display
      | none => "User interaction"

/-- Model of `MemoryManager._summarize_output`. -/
def summarizeOutput (output : Json) (chain_type : String) : String :=
  if chain_type = "plan" then
    match output.getField "title" with
    | some v => v.display
    | none => "AI response generated"
  else if chain_type = "quiz" then
    match output.getField "questions" with
    | some (.arr qs) => "Generated " ++ toString qs.length ++ " questions"
    | _ => "AI response generated"
  else if chain_type = "explain" then
    match output.getField "explanation" with
    | some (.str e) => if e.length > 100 then e.take 100 ++ "..." else e
    | _ => "AI response generated"
  else "AI response generated"

/-- A reduced context item as returned to the chains (the `timestamp` field
is the record's timestamp, `isoformat()`-encoding elided). -/
structure ContextItem where
  timestamp : Int
  chain_type : String
  input_summary : String
  output_summary : String
deriving DecidableEq, Repr

/-- Model of `MemoryManager._format_interactions_for_context`. -/
def formatInteractionsForContext (l : List InteractionRecord) :
    List ContextItem :=
  l.map (fun r =>
    ⟨r.timestamp, r.chain_type, summarizeInput r.input_data,
     summarizeOutput r.output_data r.chain_type⟩)

/-- Model of `MemoryManager._extract_query_text`: concatenate every string
value and every string inside a list value, space separated. -/
def extractQueryText : Json → String
  | .obj fs =>
      String.intercalate " "
        ((fs.map (fun p =>
          match p.2 with
          | .str s => [s]
          | .arr l => l.filterMap (fun v =>
              match v with
              | .str s => some s
              | _ => none)
          | _ => [])).flatten)
  | _ => ""

/-- The top-up loop of `get_context_for_chain`: for each similar item, skip
it if already present, else append; stop as soon as the target length is
reached. -/
def addSimilarContext (maxItems : Nat) :
    List ContextItem → List ContextItem → List ContextItem
  | ctx, [] => ctx
  | ctx, i :: rest =>
    if i ∈ ctx then addSimilarContext maxItems ctx rest
    else
      let ctx' := ctx ++ [i]
      if maxItems ≤ ctx'.length then ctx'
      else addSimilarContext maxItems ctx' rest

/-- Model of `MemoryManager.get_context_for_chain`.  `redis?` is the
configured recency cache (`none` covers both an absent cache and a cache
whose read raised — the `except` path leaves `context_items` empty either
way).  `chromaQuery?` abstracts `ChromaMemoryStore.retrieve_similar_interactions`
— an external vector search already filtered to this user and chain type —
as a function from the query text and requested result count to the
records it returns. -/
def MemoryManager.get_context_for_chain (redis? : Option RedisState)
    (chromaQuery? : Option (String → Nat → List InteractionRecord))
    (user_id : String) (chain_type : String) (current_input : Json)
    (max_context_items : Nat) : List ContextItem :=
  let context_items :=
    match redis? with
    | some st =>
        formatInteractionsForContext
          (RedisMemoryCache.get_recent_interactions st user_id (some chain_type)
            max_context_items)
    | none => []
  let context_items :=
    if context_items.length < max_context_items then
      match chromaQuery? with
      | some q =>
        let query_text := extractQueryText current_input
        let similar := q query_text (max_context_items - context_items.length)
        addSimilarContext max_context_items context_items
          (formatInteractionsForContext similar)
      | none => context_items
    else context_items
  context_items.take max_context_items

/-! ### ws.py — WebSocket message handling and connection lifecycle
(claims C9, C10)

Outbound frames are modelled as an inductive type; "sending" appends to a
frame list.  Every frame additionally carries a `timestamp` in the source
(`datetime.now().isoformat()`), passed here as the `now` argument.
-/

/-- An inbound message as a parsed JSON envelope: each field of the
`WebSocketMessage` pydantic model, present or absent.  The payload under
`data` is irrelevant to the claims about ping handling, so only its
presence is tracked together with the raw object. -/
structure InboundMessage where
  typeField : Option String
  dataField : Option Json
  user_id : Option String
  request_id : Option String
deriving Repr

/-- The validated `WebSocketMessage` model: `type` and `data` are required
fields, `user_id` and `request_id` optional. -/
structure WebSocketMessage where
  type : String
  data : Json
  user_id : Option String
  request_id : Option String
deriving Repr

/-- Pydantic validation of `WebSocketMessage`: fails (a `ValidationError`)
whenever `type` or `data` is absent. -/
def WebSocketMessage.validate (m : InboundMessage) : Option WebSocketMessage :=
  match m.typeField, m.dataField with
  | some t, some d => some ⟨t, d, m.user_id, m.request_id⟩
  | _, _ => none

/-- Outbound frames, one constructor per `type` the server emits. -/
inductive Frame where
  | connected (clientId : String) (message : String) (now : String)
  | statusFrame (requestId : String) (status : String) (message : String) (now : String)
  | contentUpdate (requestId : String) (piece : String) (accumulated : String) (now : String)
  | quizComplete (requestId : String) (result : Json) (now : String)
  | errorFrame (requestId : Option String) (errorMessage : String) (now : String)
  | pingFrame (now : String)
  | pong (requestId : Option String) (now : String)
deriving Repr

/-- Model of `ConnectionManager._handle_ping`: one pong frame echoing the
request id. -/
def ConnectionManager.handle_ping (ws_message : WebSocketMessage)
    (now : String) : List Frame :=
  [.pong ws_message.request_id now]

/-- Model of `ConnectionManager.handle_message`.  `raw = none` models text
that is not JSON (`json.JSONDecodeError`); validation failure sends an
error frame with a null request id (the source interpolates the pydantic
error text after "Invalid message format: ", summarised here by the fixed
prefix).  `streamQuiz` abstracts `_handle_quiz_request`'s streaming
generation, which emits its own frames. -/
def ConnectionManager.handle_message
    (streamQuiz : WebSocketMessage → String → List Frame)
    (raw : Option InboundMessage) (now : String) : List Frame :=
  match raw with
  | none => [.errorFrame none "Invalid message format: " now]
  | some m =>
    match WebSocketMessage.validate m with
    | none => [.errorFrame none "Invalid message format: " now]
    | some ws =>
      if ws.type = "quiz_request" then streamQuiz ws now
      else if ws.type = "ping" then ConnectionManager.handle_ping ws now
      else [.errorFrame ws.request_id ("Unknown message type: " ++ ws.type) now]

/-- Model of `ConnectionManager.connect`: register the client id in the
`active_connections` dict (keyed by client id, so a set of ids). -/
def ConnectionManager.connect (conns : Finset String) (client_id : String) :
    Finset String :=
  insert client_id conns

/-- Model of `ConnectionManager.disconnect`: delete the client id's entry
if present. -/
def ConnectionManager.disconnect (conns : Finset String) (client_id : String) :
    Finset String :=
  conns.erase client_id

/-- One iteration's inbound event in the endpoint's receive loop. -/
inductive WsEvent where
  | message (raw : Option InboundMessage)
  | timeout
  | disconnected
  | failure
deriving Repr

/-- The connection-manager state visible to the endpoint, plus the frames
sent so far on this socket. -/
structure WsState where
  conns : Finset String
  frames : List Frame

/-- The `while True` receive loop of `websocket_adapt_endpoint`, run over a
finite trace of events: a normal message is dispatched to
`handle_message`, a receive timeout sends a server `ping` frame and
continues, `WebSocketDisconnect` breaks out of the loop, and any other
exception propagates to the endpoint's outer handler — either way the loop
ends and the state so far is returned.  The loop itself never touches
`active_connections`. -/
def wsLoop (streamQuiz : WebSocketMessage → String → List Frame)
    (now : String) : List WsEvent → WsState → WsState
  | [], st => st
  | e :: rest, st =>
    match e with
    | .message raw =>
        wsLoop streamQuiz now rest
          { st with frames :=
              st.frames ++ ConnectionManager.handle_message streamQuiz raw now }
    | .timeout =>
        wsLoop streamQuiz now rest
          { st with frames := st.frames ++ [.pingFrame now] }
    | .disconnected => st
    | .failure => st

/-- Model of `websocket_adapt_endpoint`: assign a client id, register it
and send the welcome frame (`acceptOk = false` models `accept` itself
raising, in which case the registration never happened), run the receive
loop, and — in the `finally` block, on every termination path — deregister
the client id. -/
def websocket_adapt_endpoint
    (streamQuiz : WebSocketMessage → String → List Frame)
    (client_id : String) (acceptOk : Bool) (events : List WsEvent)
    (now : String) (st₀ : WsState) : WsState :=
  let st₁ :=
    if acceptOk then
      wsLoop streamQuiz now events
        { conns := ConnectionManager.connect st₀.conns client_id,
          frames := st₀.frames ++
            [.connected client_id
              "Connected to StudySync AI streaming quiz service" now] }
    else st₀
  { st₁ with conns := ConnectionManager.disconnect st₁.conns client_id }

/-! ### Concrete values used to instantiate the theorems below -/

/-- Unwrap a chain result, `.null` for a propagated exception (every use
below is on a call proved or computed to be `.ok`). -/
def okValue : Except String Json → Json
  | .ok j => j
  | .error _ => .null

/-- A concrete keyed-hash stand-in for instantiating the abstract `mac`. -/
def macW : String → JwtClaims → String := fun secret _ => secret ++ "-sig"

/-- The canonical string of UUID 1. -/
def uuidStrW : String := "00000000-0000-0000-0000-000000000001"

/-- A concrete simplified-chain study-plan input. -/
def planInputW : StudyPlanInput :=
  ⟨"u", "Math", ["pass the exam"], "4 weeks", "intermediate", "balanced",
   "1 hour per day", [], ""⟩

/-- A concrete simplified-chain quiz input with `question_count = 5`. -/
def quizInputW : QuizInput :=
  ⟨"u", "Topic", "medium", 5, ["multiple_choice"], [], []⟩

/-- A concrete simplified-chain quiz input with `question_count = 2`. -/
def quizInputW2 : QuizInput :=
  ⟨"u", "Topic", "medium", 2, ["multiple_choice"], [], []⟩

/-- Concrete interaction records for the Redis counterexample: two `plan`
records newer than everything else, one `quiz` record. -/
def recPlan1 : InteractionRecord := ⟨"u", "plan", .obj [], .obj [], 10⟩

/-- Second, slightly older `plan` record. -/
def recPlan2 : InteractionRecord := ⟨"u", "plan", .obj [], .obj [], 9⟩

/-- A single old `quiz` record. -/
def recQuiz1 : InteractionRecord := ⟨"u", "quiz", .obj [], .obj [], 1⟩

/-- A Redis state with two ids on the `plan` recency list and one on the
`quiz` list. -/
def redisStateW : RedisState :=
  { lists := fun k =>
      if k = "recent:u:plan" then ["p1", "p2"]
      else if k = "recent:u:quiz" then ["q1"]
      else [],
    kv := fun k =>
      if k = "p1" then some recPlan1
      else if k = "p2" then some recPlan2
      else if k = "q1" then some recQuiz1
      else none }

/-- First cached quiz record for the context-retrieval witness. -/
def recCtxA : InteractionRecord := ⟨"u", "quiz", .obj [("topic", .str "A")], .obj [], 5⟩

/-- Second cached quiz record. -/
def recCtxB : InteractionRecord := ⟨"u", "quiz", .obj [("topic", .str "B")], .obj [], 4⟩

/-- First similarity-store quiz record. -/
def recCtxC : InteractionRecord := ⟨"u", "quiz", .obj [("topic", .str "C")], .obj [], 3⟩

/-- Second similarity-store quiz record. -/
def recCtxD : InteractionRecord := ⟨"u", "quiz", .obj [("topic", .str "D")], .obj [], 2⟩

/-- Third similarity-store quiz record. -/
def recCtxE : InteractionRecord := ⟨"u", "quiz", .obj [("topic", .str "E")], .obj [], 1⟩

/-- A Redis state whose `recent:u:quiz` list yields the two cached
records. -/
def redisCtxStateW : RedisState :=
  { lists := fun k => if k = "recent:u:quiz" then ["a", "b"] else [],
    kv := fun k =>
      if k = "a" then some recCtxA
      else if k = "b" then some recCtxB
      else none }

/-- The similarity store holding three further matching records: a query
for `n` results returns the `n` most similar of them. -/
def chromaQueryW : String → Nat → List InteractionRecord :=
  fun _ n => [recCtxC, recCtxD, recCtxE].take n

/-- The quiz result produced for a response with zero parseable
questions. -/
def quizEmptyResultW : Json :=
  .obj [("questions", .arr []), ("metadata", quizMeta quizInputW "t")]

/-- The context item `recCtxA` formats to. -/
def ctxItemA : ContextItem :=
  ⟨5, "quiz", "Quiz on A (unknown difficulty)", "AI response generated"⟩

/-- The context item `recCtxB` formats to. -/
def ctxItemB : ContextItem :=
  ⟨4, "quiz", "Quiz on B (unknown difficulty)", "AI response generated"⟩

/-- The context item `recCtxC` formats to. -/
def ctxItemC : ContextItem :=
  ⟨3, "quiz", "Quiz on C (unknown difficulty)", "AI response generated"⟩

/-- The context item `recCtxD` formats to. -/
def ctxItemD : ContextItem :=
  ⟨2, "quiz", "Quiz on D (unknown difficulty)", "AI response generated"⟩

/-- The context item `recCtxE` formats to. -/
def ctxItemE : ContextItem :=
  ⟨1, "quiz", "Quiz on E (unknown difficulty)", "AI response generated"⟩

/-- A ping envelope without a `data` member (the shape the repository's
own `test_ping_pong` script sends). -/
def pingNoDataMsg : InboundMessage := ⟨some "ping", none, none, some "X"⟩

/-- The same ping envelope with an (empty) `data` object added. -/
def pingWithDataMsg : InboundMessage :=
  ⟨some "ping", some (.obj []), none, some "X"⟩

/-! ### Helper lemmas about association-list update -/

/-- Unfolding one step of association-list lookup into a propositional if. -/
theorem lookup_cons (a k : String) (v : Json) (l : List (String × Json)) :
    ((k, v) :: l).lookup a = if a = k then some v else l.lookup a := by
  by_cases hak : a = k
  · simp [List.lookup, hak]
  · have hb : (a == k) = false := beq_eq_false_iff_ne.mpr hak
    simp [List.lookup, hb, hak]

/-- Assigning key `k` leaves lookups of every other key unchanged. -/
theorem lookup_setFieldList_ne (k k' : String) (v : Json) (h : k' ≠ k) :
    ∀ fs : List (String × Json),
      (setFieldList fs k v).lookup k' = fs.lookup k'
  | [] => by
    have hb : (k' == k) = false := beq_eq_false_iff_ne.mpr h
    simp [setFieldList, List.lookup, hb]
  | (a, w) :: ps => by
    by_cases hak : a = k
    · subst hak
      simp [setFieldList, lookup_cons, h]
    · by_cases hk'a : k' = a <;>
        simp [setFieldList, hak, lookup_cons, hk'a,
          lookup_setFieldList_ne k k' v h ps]

/-- `Json.setField` leaves every other field's lookup unchanged. -/
theorem getField_setFieldList_ne (fs : List (String × Json)) (k k' : String)
    (v : Json) (h : k' ≠ k) :
    Json.getField (.obj (setFieldList fs k v)) k' = Json.getField (.obj fs) k' :=
  lookup_setFieldList_ne k k' v h fs

/-- A successful lookup exhibits a member of the association list. -/
theorem mem_of_lookup (k : String) (v : Json) :
    ∀ fs : List (String × Json), fs.lookup k = some v → (k, v) ∈ fs
  | [], h => by simp [List.lookup] at h
  | (a, w) :: ps, h => by
    rw [lookup_cons] at h
    by_cases hk : k = a
    · rw [if_pos hk] at h
      obtain rfl : w = v := Option.some.inj h
      subst hk
      exact List.mem_cons_self _ _
    · rw [if_neg hk] at h
      exact List.mem_cons_of_mem _ (mem_of_lookup k v ps h)

/-! ### The claims -/

/-- Claim C5 (code bug): for every response text that is not valid JSON
after code-fence stripping, `StudyPlanOutputParser.parse` does not return
the documented fallback object: the `except json.JSONDecodeError` handler
interpolates `self.subject`, an attribute the parser object does not have,
so the handler itself raises `AttributeError` — which, being raised inside
an `except` clause, escapes `parse`. -/
theorem plan_output_parser_raises_on_invalid_json
    (loads : String → Option Json) (text : String)
    (h : loads (stripCodeFence text) = none) :
    StudyPlanOutputParser.parse loads text
      = .error "'StudyPlanOutputParser' object has no attribute 'subject'" := by
  simp [StudyPlanOutputParser.parse, h]

/-- Witness for C5: the plain-text response `"hello"` makes the parser
raise instead of returning the fallback. -/
theorem plan_output_parser_raises_witness :
    StudyPlanOutputParser.parse (fun _ => none) "hello"
      = .error "'StudyPlanOutputParser' object has no attribute 'subject'" :=
  plan_output_parser_raises_on_invalid_json (fun _ => none) "hello" rfl

/-- Claim C8: `_calculate_study_duration` always lands in `[1, 16]`;
it returns exactly 8 when the exam date is absent (`None` or the falsy
`""`) or fails to parse; and for a parsed future date it returns
`max(1, days_available // 7)` capped at 16. -/
theorem study_duration_spec :
    (∀ f ed, 1 ≤ calculate_study_duration f ed
      ∧ calculate_study_duration f ed ≤ 16)
    ∧ (∀ f, calculate_study_duration f none = 8
      ∧ calculate_study_duration f (some "") = 8)
    ∧ (∀ f s, s ≠ "" → f s = none → calculate_study_duration f (some s) = 8)
    ∧ (∀ f s d, s ≠ "" → f s = some d → 0 ≤ d →
        calculate_study_duration f (some s) = min (max 1 (Int.fdiv d 7)) 16) := by
  refine ⟨?_, ?_, ?_, ?_⟩
  · intro f ed
    cases ed with
    | none =>
      constructor <;> norm_num [calculate_study_duration]
    | some s =>
      by_cases hs : s = ""
      · constructor <;> norm_num [calculate_study_duration, hs]
      · cases hf : f s with
        | none => constructor <;> norm_num [calculate_study_duration, hs, hf]
        | some d =>
          rw [show calculate_study_duration f (some s)
                = min (max 1 (Int.fdiv d 7)) 16 from by
              simp [calculate_study_duration, hs, hf]]
          exact ⟨le_min (le_max_left 1 _) (by norm_num), min_le_right _ _⟩
  · intro f; exact ⟨rfl, rfl⟩
  · intro f s hs hf; simp [calculate_study_duration, hs, hf]
  · intro f s d hs hf _; simp [calculate_study_duration, hs, hf]

/-- Witness for C8: a malformed date falls back to 8; a parsed date 70
days out yields `min (max 1 10) 16 = 10` weeks. -/
theorem study_duration_spec_witness :
    calculate_study_duration (fun _ => none) (some "not-a-date") = 8
    ∧ calculate_study_duration (fun _ => some 70) (some "2026-12-31")
        = min (max 1 (Int.fdiv 70 7)) 16 :=
  ⟨study_duration_spec.2.2.1 _ "not-a-date" (by decide) rfl,
   study_duration_spec.2.2.2 _ "2026-12-31" 70 (by decide) rfl (by decide)⟩

/-- Claim C9 (code bug): the ping message
`{"type": "ping", "request_id": "X"}` — the very shape the repository's
`test_ping_pong` script sends and the spec describes — fails
`WebSocketMessage` validation because `data` is a required field with no
default, so `handle_message` answers it with a single `error` frame rather
than the specified `pong`; adding a `data` object yields exactly one pong
echoing the request id. -/
theorem ping_without_data_gets_error_frame :
    ConnectionManager.handle_message (fun _ _ => []) (some pingNoDataMsg) "t"
      = [.errorFrame none "Invalid message format: " "t"]
    ∧ ConnectionManager.handle_message (fun _ _ => []) (some pingWithDataMsg) "t"
      = [.pong (some "X") "t"] :=
  ⟨rfl, rfl⟩

/-- Claim C10: whatever path terminates the endpoint — trace exhaustion,
graceful client disconnect, a receive failure, even `accept` itself
failing before registration — the `finally` block leaves no entry for the
connection's client id in `active_connections`. -/
theorem websocket_endpoint_deregisters_client
    (streamQuiz : WebSocketMessage → String → List Frame) (client_id : String)
    (acceptOk : Bool) (events : List WsEvent) (now : String) (st₀ : WsState) :
    client_id ∉
      (websocket_adapt_endpoint streamQuiz client_id acceptOk events now st₀).conns := by
  simp [websocket_adapt_endpoint, ConnectionManager.disconnect]

/-- Claim C2 counterexample: when the input mapping lacks the
`"explain_input"` key, `ExplainChain.__call__` does not return a fallback:
its `except` handler interpolates the unbound local `explain_input`, and
that `UnboundLocalError` propagates out of the call. -/
theorem explain_chain_missing_input_raises :
    ExplainChain.call (.ok "some text") none "t"
      = .error "cannot access local variable 'explain_input' where it is not associated with a value" :=
  rfl

/-- Claim C2 (amended): PlanChain and QuizChain convert every exception —
missing input key included — into their deterministic fallback payloads
and never raise; ExplainChain does so only for exceptions raised after its
input was successfully extracted (for example an LLM failure), its
fallback embedding the requested concept and the error message. -/
theorem chains_error_containment :
    (∀ loads llm inputs genTime,
        ∃ j, PlanChain.call loads llm inputs genTime = .ok j)
    ∧ (∀ loads llm inputs genTime,
        ∃ j, QuizChain.call loads llm inputs genTime = .ok j)
    ∧ (∀ llm inp genTime,
        ∃ j, ExplainChain.call llm (some inp) genTime = .ok j)
    ∧ (∀ loads inp genTime e,
        PlanChain.call loads (.error e) (some inp) genTime
          = .ok (planErrorFallback e))
    ∧ (∀ loads inp genTime e,
        QuizChain.call loads (.error e) (some inp) genTime
          = .ok (quizErrorFallback e))
    ∧ (∀ inp genTime e,
        ExplainChain.call (.error e) (some inp) genTime
          = .ok (explainErrorFallback inp.concept e)) := by
  refine ⟨?_, ?_, ?_, ?_, ?_, ?_⟩
  · intro loads llm inputs genTime
    cases h : PlanChain.callBody loads llm inputs genTime with
    | ok j => exact ⟨j, by simp [PlanChain.call, h]⟩
    | error e => exact ⟨planErrorFallback e, by simp [PlanChain.call, h]⟩
  · intro loads llm inputs genTime
    cases h : QuizChain.callBody loads llm inputs genTime with
    | ok j => exact ⟨j, by simp [QuizChain.call, h]⟩
    | error e => exact ⟨quizErrorFallback e, by simp [QuizChain.call, h]⟩
  · intro llm inp genTime
    cases h : ExplainChain.callBody llm (some inp) genTime with
    | ok j => exact ⟨j, by simp [ExplainChain.call, h]⟩
    | error e =>
        exact ⟨explainErrorFallback inp.concept e, by simp [ExplainChain.call, h]⟩
  · intro loads inp genTime e; rfl
  · intro loads inp genTime e; rfl
  · intro inp genTime e; rfl

/-- With a successfully returned LLM text, `QuizChain.__call__` wraps
whatever `_parse_questions` produced, plus the metadata block. -/
theorem quiz_call_ok (loads : String → Option Json) (text : String)
    (inp : QuizInput) (genTime : String) :
    QuizChain.call loads (.ok text) (some inp) genTime
      = .ok (.obj [("questions", .arr (QuizChain.parse_questions loads text inp)),
                   ("metadata", quizMeta inp genTime)]) := rfl

/-- Claim C3 (amended): with `question_count = N` and a well-formed JSON
array response of length at least N, the simplified QuizChain returns
exactly N questions; but a response from which zero questions can be
parsed yields an empty `questions` list — the fixed one-item fallback set
with `correct_answer: "Please try again"` is produced only by the
exception handler (for example when the LLM call itself raises). -/
theorem quiz_question_count_contract :
    (∀ loads text qs inp genTime,
        strStartsWith (pyStrip text) "[" = true →
        loads text = some (.arr qs) →
        inp.question_count ≤ qs.length →
        QuizChain.call loads (.ok text) (some inp) genTime
          = .ok (.obj [("questions", .arr (qs.take inp.question_count)),
                       ("metadata", quizMeta inp genTime)])
        ∧ (qs.take inp.question_count).length = inp.question_count)
    ∧ (∀ loads text inp genTime,
        QuizChain.parse_questions loads text inp = [] →
        QuizChain.call loads (.ok text) (some inp) genTime
          = .ok (.obj [("questions", .arr []),
                       ("metadata", quizMeta inp genTime)]))
    ∧ (∀ loads inp genTime e,
        QuizChain.call loads (.error e) (some inp) genTime
          = .ok (quizErrorFallback e)) := by
  refine ⟨?_, ?_, ?_⟩
  · intro loads text qs inp genTime h1 h2 h3
    have hp : QuizChain.parse_questions loads text inp
        = qs.take inp.question_count := by
      simp [QuizChain.parse_questions, h1, h2]
    constructor
    · rw [quiz_call_ok, hp]
    · simp [List.length_take]
      omega
  · intro loads text inp genTime hp
    rw [quiz_call_ok, hp]
  · intro loads inp genTime e; rfl

/-- Witness for C3 (amended): a JSON array of three nulls with
`question_count = 2` yields exactly 2 questions. -/
theorem quiz_question_count_contract_witness :
    QuizChain.call (fun _ => some (.arr [.null, .null, .null]))
        (.ok "[null, null, null]") (some quizInputW2) "t"
      = .ok (.obj [("questions", .arr ([Json.null, .null, .null].take 2)),
                   ("metadata", quizMeta quizInputW2 "t")])
    ∧ ([Json.null, .null, .null].take 2).length = 2 :=
  quiz_question_count_contract.1 (fun _ => some (.arr [.null, .null, .null]))
    "[null, null, null]" [.null, .null, .null] quizInputW2 "t"
    (by decide) rfl (by decide)

/-- Claim C3 counterexample: a response that starts with neither bracket
and contains no question-like line yields an empty `questions` list, not
the one-item "Please try again" fallback set the claim promises. -/
theorem quiz_zero_parse_returns_empty :
    QuizChain.call (fun _ => none) (.ok "nothing to see here")
        (some quizInputW) "t" = .ok quizEmptyResultW
    ∧ Json.getField quizEmptyResultW "questions" = some (.arr [])
    ∧ ¬ ∃ q, Json.getField quizEmptyResultW "questions"
        = some (.arr [q]) := by
  refine ⟨rfl, rfl, ?_⟩
  rintro ⟨q, hq⟩
  rw [show Json.getField quizEmptyResultW "questions" = some (.arr [])
    from rfl] at hq
  simp at hq

/-- Claim C4 counterexample: a response whose stripped text starts with
`{` but is not valid JSON takes the fallback branch, whose `description`
field is exactly the raw response text — contradicting the claim that a
`{`-prefixed response always yields `description ≠ raw text`. -/
theorem plan_malformed_json_keeps_raw_description :
    (strStartsWith (pyStrip "\x7boops") "\x7b") = true
    ∧ Json.getField
        (okValue (PlanChain.call (fun _ => none) (.ok "\x7boops")
          (some planInputW) "t"))
        "description" = some (.str "\x7boops") :=
  ⟨rfl, rfl⟩

/-- Claim C4 (amended): when the stripped response starts with `{` and
parses as a JSON object whose `description` member (if any string) is
shorter than the whole document — which is true of every real
`json.loads` result, since a member string value is a proper substring's
decoding — the returned `description` differs from the raw text; when the
stripped response starts with `{` but `json.loads` fails, or does not
start with `{` at all, `description` is the raw text verbatim and
`sections` is the empty list. -/
theorem plan_json_branch_contract :
    (∀ (loads : String → Option Json) (text : String) inp genTime fs,
        strStartsWith (pyStrip text) "\x7b" = true →
        loads text = some (.obj fs) →
        (∀ d, ("description", Json.str d) ∈ fs → d.length < text.length) →
        Json.getField
            (okValue (PlanChain.call loads (.ok text) (some inp) genTime))
            "description" ≠ some (.str text))
    ∧ (∀ (loads : String → Option Json) (text : String) inp genTime,
        strStartsWith (pyStrip text) "\x7b" = false →
        Json.getField
            (okValue (PlanChain.call loads (.ok text) (some inp) genTime))
            "description" = some (.str text)
        ∧ Json.getField
            (okValue (PlanChain.call loads (.ok text) (some inp) genTime))
            "sections" = some (.arr []))
    ∧ (∀ (loads : String → Option Json) (text : String) inp genTime,
        strStartsWith (pyStrip text) "\x7b" = true →
        loads text = none →
        Json.getField
            (okValue (PlanChain.call loads (.ok text) (some inp) genTime))
            "description" = some (.str text)
        ∧ Json.getField
            (okValue (PlanChain.call loads (.ok text) (some inp) genTime))
            "sections" = some (.arr [])) := by
  refine ⟨?_, ?_, ?_⟩
  · intro loads text inp genTime fs h1 h2 hlen
    have hcall : PlanChain.call loads (.ok text) (some inp) genTime
        = .ok (.obj (setFieldList fs "metadata" (planMetadata inp genTime))) := by
      simp [PlanChain.call, PlanChain.callBody, h1, h2, Json.setField]
    rw [hcall]
    show Json.getField
        (.obj (setFieldList fs "metadata" (planMetadata inp genTime)))
        "description" ≠ some (.str text)
    rw [getField_setFieldList_ne _ _ _ _ (by decide)]
    intro hq
    have hmem := mem_of_lookup _ _ fs hq
    have := hlen text hmem
    omega
  · intro loads text inp genTime h1
    have hcall : PlanChain.call loads (.ok text) (some inp) genTime
        = .ok (.obj (setFieldList
            [("title", .str (inp.subject ++ " Study Plan")),
             ("description", .str text),
             ("sections", .arr []),
             ("total_duration", .str inp.timeline),
             ("difficulty_level", .str inp.difficulty_level)]
            "metadata" (planMetadata inp genTime))) := by
      simp [PlanChain.call, PlanChain.callBody, h1, planTextWrap, Json.setField]
    constructor
    · rw [hcall]
      show Json.getField (.obj (setFieldList _ "metadata" _)) "description"
          = some (.str text)
      rw [getField_setFieldList_ne _ _ _ _ (by decide)]
      rfl
    · rw [hcall]
      show Json.getField (.obj (setFieldList _ "metadata" _)) "sections"
          = some (.arr [])
      rw [getField_setFieldList_ne _ _ _ _ (by decide)]
      rfl
  · intro loads text inp genTime h1 h2
    have hcall : PlanChain.call loads (.ok text) (some inp) genTime
        = .ok (.obj (setFieldList
            [("title", .str (inp.subject ++ " Study Plan")),
             ("description", .str text),
             ("sections", .arr []),
             ("total_duration", .str inp.timeline),
             ("difficulty_level", .str inp.difficulty_level)]
            "metadata" (planMetadata inp genTime))) := by
      simp [PlanChain.call, PlanChain.callBody, h1, h2, planTextWrap,
        Json.setField]
    constructor
    · rw [hcall]
      show Json.getField (.obj (setFieldList _ "metadata" _)) "description"
          = some (.str text)
      rw [getField_setFieldList_ne _ _ _ _ (by decide)]
      rfl
    · rw [hcall]
      show Json.getField (.obj (setFieldList _ "metadata" _)) "sections"
          = some (.arr [])
      rw [getField_setFieldList_ne _ _ _ _ (by decide)]
      rfl

/-- Witness for C4 (amended): a parsed object carrying its own
`description` ("x", shorter than the document) yields a `description`
different from the raw text; a plain-text response keeps the raw text;
a brace-prefixed response on which the parse fails keeps the raw text as
`description` with empty `sections`. -/
theorem plan_json_branch_contract_witness :
    (Json.getField
        (okValue (PlanChain.call
          (fun _ => some (.obj [("description", .str "x")]))
          (.ok "\x7b\"description\": \"x\"\x7d") (some planInputW) "t"))
        "description" ≠ some (.str "\x7b\"description\": \"x\"\x7d"))
    ∧ Json.getField
        (okValue (PlanChain.call (fun _ => none) (.ok "plain text")
          (some planInputW) "t"))
        "description" = some (.str "plain text")
    ∧ (Json.getField
        (okValue (PlanChain.call (fun _ => none) (.ok "\x7bbad json")
          (some planInputW) "t"))
        "description" = some (.str "\x7bbad json")
      ∧ Json.getField
        (okValue (PlanChain.call (fun _ => none) (.ok "\x7bbad json")
          (some planInputW) "t"))
        "sections" = some (.arr [])) :=
  ⟨plan_json_branch_contract.1 _ _ planInputW "t" [("description", .str "x")]
      (by decide) rfl
      (by
        intro d hd
        simp at hd
        subst hd
        decide),
   (plan_json_branch_contract.2.1 _ _ planInputW "t" (by decide)).1,
   plan_json_branch_contract.2.2 _ "\x7bbad json" planInputW "t"
      (by decide) rfl⟩

/-- LRANGE from 0 with a natural inclusive stop index is a take of one
more element. -/
theorem lrange_take (l : List String) (n : Nat) :
    lrange l 0 (n : Int) = l.take (n + 1) := by
  have h1 : ¬ ((n : Int) < 0) := by omega
  have h2 : ((n : Int) + 1).toNat = n + 1 := by omega
  simp [lrange, h1, h2]

/-- The same fact in the cast-normalised form `↑n / 3`. -/
theorem lrange_take_div (l : List String) (n : Nat) :
    lrange l 0 ((n : Int) / 3) = l.take (n / 3 + 1) := by
  have h : ((n : Int) / 3) = ((n / 3 : Nat) : Int) := by omega
  rw [h, lrange_take]

/-- Claim C6 counterexample: with `max_results = 3` and two sufficiently
new records on the `plan` recency list, the merged result contains two
`plan` records — impossible if at most `max_results ÷ 3 = 1` id were
fetched from each category.  The inclusive LRANGE stop index makes the
code fetch `max_results ÷ 3 + 1` ids per category. -/
theorem redis_all_types_overfetch :
    ((RedisMemoryCache.get_recent_interactions redisStateW "u" none 3).countP
        (fun r => r.chain_type == "plan")) = 2
    ∧ ¬ ((RedisMemoryCache.get_recent_interactions redisStateW "u" none 3).countP
        (fun r => r.chain_type == "plan") ≤ 3 / 3) := by
  refine ⟨rfl, ?_⟩
  rw [show ((RedisMemoryCache.get_recent_interactions redisStateW "u" none 3).countP
      (fun r => r.chain_type == "plan")) = 2 from rfl]
  decide

/-- Claim C6 (amended): retrieval across all chain types fetches at most
`max_results ÷ 3 + 1` record ids from each of the three fixed categories
"plan", "quiz", "explain", merges them, sorts newest first (stably), and
truncates the merged result to `max_results` items. -/
theorem redis_all_types_retrieval (st : RedisState) (user_id : String)
    (max_results : Nat) :
    RedisMemoryCache.get_recent_interactions st user_id none max_results
      = claimedRecentRetrievalAllTypes st user_id max_results := by
  unfold RedisMemoryCache.get_recent_interactions claimedRecentRetrievalAllTypes
  simp [lrange_take, lrange_take_div]

/-- Claim C7: with 2 recency-cache items and a similarity store that would
return 3 further matching items (none of them equal to a cached one),
`get_context_for_chain` with `max_context_items = 3` returns exactly 3
items, every cache item before the similarity item, with no duplicates. -/
theorem context_retrieval_order
    (st : RedisState) (q : String → Nat → List InteractionRecord)
    (user_id chain_type : String) (input : Json)
    (a b c d e : ContextItem)
    (hred : formatInteractionsForContext
        (RedisMemoryCache.get_recent_interactions st user_id (some chain_type) 3)
      = [a, b])
    (hq : ∀ n, formatInteractionsForContext (q (extractQueryText input) n)
      = [c, d, e].take n)
    (hab : a ≠ b) (hca : c ≠ a) (hcb : c ≠ b) :
    MemoryManager.get_context_for_chain (some st) (some q) user_id chain_type
        input 3 = [a, b, c]
    ∧ ([a, b, c] : List ContextItem).length = 3
    ∧ ([a, b, c] : List ContextItem).Nodup := by
  refine ⟨?_, rfl, ?_⟩
  · have hone : formatInteractionsForContext (q (extractQueryText input) 1) = [c] := by
      simpa using hq 1
    have hcmem : c ∉ ([a, b] : List ContextItem) := by
      simp [hca, hcb]
    simp [MemoryManager.get_context_for_chain, hred, hone, addSimilarContext, hcmem]
  · simp [hab, Ne.symm hca, Ne.symm hcb]

/-- Witness for C7: two cached quiz records and a three-record similarity
store yield `[ctxItemA, ctxItemB, ctxItemC]`. -/
theorem context_retrieval_order_witness :
    MemoryManager.get_context_for_chain (some redisCtxStateW) (some chromaQueryW)
        "u" "quiz" (.obj []) 3 = [ctxItemA, ctxItemB, ctxItemC] :=
  (context_retrieval_order redisCtxStateW chromaQueryW "u" "quiz" (.obj [])
      ctxItemA ctxItemB ctxItemC ctxItemD ctxItemE
      rfl
      (fun n => by
        show formatInteractionsForContext ([recCtxC, recCtxD, recCtxE].take n)
            = [ctxItemC, ctxItemD, ctxItemE].take n
        rw [show ([ctxItemC, ctxItemD, ctxItemE] : List ContextItem)
            = formatInteractionsForContext [recCtxC, recCtxD, recCtxE] from rfl]
        exact List.map_take ..)
      (by decide) (by decide) (by decide)).1

/-- Claim C1: a token HMAC-signed with the configured secret whose claims
carry `sub = u` (any string parsing as the UUID `u`) and a future `exp` is
accepted by `get_current_user`, which returns a `User` with `id = u`; the
same token with `exp` in the past fails with the 401 expired-token
error. -/
theorem token_verification_round_trip
    (mac : String → JwtClaims → String) (secret : String) (now e : Int)
    (s : String) (u : Nat) (email nameMeta : Option String)
    (hu : uuidFromString s = some u) :
    (now < e →
      get_current_user mac (some secret) now
          (some (signToken mac secret ⟨some s, some e, email, nameMeta⟩))
        = .ok ⟨u, email, nameMeta⟩)
    ∧ (e < now →
      get_current_user mac (some secret) now
          (some (signToken mac secret ⟨some s, some e, email, nameMeta⟩))
        = .error ⟨401, "Token has expired. Please login again."⟩) := by
  have hs : s ≠ "" := by
    intro hempty
    rw [hempty, show uuidFromString "" = none from rfl] at hu
    exact Option.noConfusion hu
  constructor
  · intro hlt
    have hnle : ¬ (e ≤ now) := not_le.mpr hlt
    simp [get_current_user, verify_token, jwtDecode, signToken, hnle, hs, hu]
  · intro hlt
    have hle : e ≤ now := le_of_lt hlt
    simp [get_current_user, verify_token, jwtDecode, signToken, hle]

/-- Witness for C1: UUID 1 in canonical form, expiry 200, against clock
100 (accepted) and clock 300 (expired). -/
theorem token_verification_round_trip_witness :
    get_current_user macW (some "topsecret") 100
        (some (signToken macW "topsecret" ⟨some uuidStrW, some 200, none, none⟩))
      = .ok ⟨1, none, none⟩
    ∧ get_current_user macW (some "topsecret") 300
        (some (signToken macW "topsecret" ⟨some uuidStrW, some 200, none, none⟩))
      = .error ⟨401, "Token has expired. Please login again."⟩ :=
  ⟨(token_verification_round_trip macW "topsecret" 100 200 uuidStrW 1 none none
      (by decide)).1 (by decide),
   (token_verification_round_trip macW "topsecret" 300 200 uuidStrW 1 none none
      (by decide)).2 (by decide)⟩

end StudySync
